import Mathlib

/-!
# Verification of the free-bandcamp-downloader core against its specification

Shallow embedding of the acquisition decision engine and fulfillment pipeline
of the repository (files `bc_free_downloader.py`, `__main__.py`,
`guerrillamail.py`).  Network interactions are modelled as explicit
environment records of pure functions; Python exceptions are modelled by the
`PyErr` type inside `Except`; Python dynamic values that flow into the history
dedup set are modelled by the `PyVal` type.  All definitions are executable.
-/

namespace BCFD

/-- Model of the Python exceptions that the code under analysis can raise.
`bcFree` models the `BCFreeDownloadError` class of `bc_free_downloader.py`;
the other constructors model built-in Python exceptions. -/
inductive PyErr
  | bcFree (msg : String)
  | stopIter
  | keyErr (key : String)
  | typeErr
  | attrErr (msg : String)
  | nameErr (name : String)
  | unboundLocal (name : String)
  | valueErr
  deriving DecidableEq, Repr

/-- Model of the dynamically typed Python values stored in the in-memory
download-history set of `__main__.py` (tuples of strings and ints, and bare
strings). -/
inductive PyVal
  | str (s : String)
  | intv (n : Nat)
  | pair (a b : PyVal)
  deriving DecidableEq, Repr

/-! ## Character-level helpers (Python string primitives)

The history file and the two regular expressions of the downloader operate on
strings; we model the relevant Python string primitives (`str.strip`, `int`,
decimal formatting, `str.replace`, substring search and the two concrete
regular expressions) over `List Char`. -/

/-- Python whitespace (the characters removed by `str.strip()`). -/
def isSpaceCh (c : Char) : Bool :=
  c.toNat = 32 || c.toNat = 9 || c.toNat = 10 || c.toNat = 13 ||
    c.toNat = 11 || c.toNat = 12

/-- ASCII decimal digit test. -/
def isDigitCh (c : Char) : Bool :=
  48 ≤ c.toNat && c.toNat ≤ 57

/-- The decimal digit character for a value below ten. -/
def decDigit : Nat → Char
  | 0 => '0' | 1 => '1' | 2 => '2' | 3 => '3' | 4 => '4'
  | 5 => '5' | 6 => '6' | 7 => '7' | 8 => '8' | _ => '9'

/-- Decimal rendering, recursion on explicit fuel so the definition reduces
by computation; the wrapper below supplies enough fuel. -/
def natDecAux : Nat → Nat → List Char
  | 0, _ => []
  | fuel + 1, n =>
    if n < 10 then [decDigit n]
    else natDecAux fuel (n / 10) ++ [decDigit (n % 10)]

/-- Decimal rendering of a natural number, as produced by a Python
f-string such as `f"{id[1]}"`. -/
def natDec (n : Nat) : List Char :=
  natDecAux (n + 1) n

/-- Value of a list of decimal digit characters. -/
def decVal (cs : List Char) : Nat :=
  cs.foldl (fun a c => a * 10 + (c.toNat - 48)) 0

/-- Model of Python `str.strip()`: drop whitespace from both ends. -/
def stripChars (cs : List Char) : List Char :=
  ((cs.dropWhile isSpaceCh).reverse.dropWhile isSpaceCh).reverse

/-- Model of Python `int(s)` restricted to the non-negative inputs that occur
in this program: strips whitespace, then requires a non-empty all-digit
string, raising `ValueError` otherwise. -/
def pyInt (cs : List Char) : Except PyErr Nat :=
  let t := stripChars cs
  if t ≠ [] ∧ t.all isDigitCh then .ok (decVal t) else .error .valueErr

/-- Substring test, modelling Python `needle in hay`. -/
def containsSub (needle : List Char) : List Char → Bool
  | [] => needle.isPrefixOf []
  | c :: rest => needle.isPrefixOf (c :: rest) || containsSub needle rest

/-- Scanning pass of `replaceAll`, recursion on explicit fuel so the
definition reduces by computation; the wrapper below supplies enough
fuel. -/
def replaceAllAux (pat rep : List Char) : Nat → List Char → List Char
  | _, [] => []
  | 0, cs => cs
  | fuel + 1, c :: rest =>
    if pat.isPrefixOf (c :: rest) ∧ pat ≠ [] then
      rep ++ replaceAllAux pat rep fuel (rest.drop (pat.length - 1))
    else
      c :: replaceAllAux pat rep fuel rest

/-- Model of Python `str.replace(pat, rep)` for a non-empty pattern:
replace every non-overlapping occurrence, scanning left to right. -/
def replaceAll (pat rep cs : List Char) : List Char :=
  replaceAllAux pat rep cs.length cs

/-- One regex-match attempt at the current position, for a pattern of the
shape `pre ([^"]*) post`: requires `pre` as a literal prefix, captures the
maximal run of non-quote characters, requires `post` immediately after.
Since the capture class excludes the quote and both concrete `post` strings
begin with a quote, the greedy capture is the only candidate, so no
backtracking is needed. -/
def tryCaptureAt (pre post cs : List Char) : Option (List Char) :=
  if pre.isPrefixOf cs then
    let after := cs.drop pre.length
    let cap := after.takeWhile (fun c => c ≠ '"')
    if post.isPrefixOf (after.drop cap.length) then some cap else none
  else none

/-- Leftmost regex search for a pattern `pre ([^"]*) post`: try a match at
every position, returning the first capture. -/
def scanCapture (pre post : List Char) : List Char → Option (List Char)
  | [] => none
  | c :: rest =>
    match tryCaptureAt pre post (c :: rest) with
    | some cap => some cap
    | none => scanCapture pre post rest

/-! ## Download history (`__main__.py`: `is_downloaded`, `add_to_dl_file`,
`get_downloaded`) -/

/-- Model of `is_downloaded` (`__main__.py` lines 114-115):
`id in downloaded_set or url in downloaded_set`.  The identity query is the
tuple `(type, id)` and the URL query is a bare string. -/
def is_downloaded (downloadedSet : List PyVal) (id : String × Nat)
    (url : String) : Bool :=
  downloadedSet.contains (PyVal.pair (PyVal.str id.1) (PyVal.intv id.2)) ||
    downloadedSet.contains (PyVal.str url)

/-- Model of the line appended by `add_to_dl_file` (`__main__.py` lines
117-120): `f"{id[0][0]}:{id[1]}"` — the first character of the kind string,
a colon, and the decimal id.  The trailing newline is the line separator of
the history file and is not part of the stored line. -/
def add_to_dl_file (id : String × Nat) : List Char :=
  id.1.toList.take 1 ++ ':' :: natDec id.2

/-- Model of the per-line parsing inside `get_downloaded` (`__main__.py`
lines 132-144): the first two characters of the stripped line select the
kind; `a:`/`t:` lines carry a decimal id, anything else is kept as a raw URL
entry. -/
def parse_history_line (line : List Char) : Except PyErr PyVal :=
  let t := (stripChars line).take 2
  if t = ['a', ':'] then
    match pyInt (line.drop 2) with
    | .ok n => .ok (PyVal.pair (PyVal.str "album") (PyVal.intv n))
    | .error e => .error e
  else if t = ['t', ':'] then
    match pyInt (line.drop 2) with
    | .ok n => .ok (PyVal.pair (PyVal.str "track") (PyVal.intv n))
    | .error e => .error e
  else
    .ok (PyVal.pair (PyVal.str "url") (PyVal.str (stripChars line).asString))

/-- Model of `get_downloaded` (`__main__.py` lines 122-145): parse every
line of the history file in sequential order, rebuilding the in-memory
dedup set (represented as the list of parsed entries; Python stores them in
a set, so only membership matters).  A parse failure mid-file propagates,
as the Python loop would raise. -/
def get_downloaded : List (List Char) → Except PyErr (List PyVal)
  | [] => .ok []
  | line :: rest =>
    match parse_history_line line with
    | .error e => .error e
    | .ok v =>
      match get_downloaded rest with
      | .error e => .error e
      | .ok vs => .ok (v :: vs)

/-- Model of the history gate in `main` (`__main__.py` lines 206-210 and
220-224): the release is skipped (the loop issues `continue`, so
`download_album` is never invoked and no further network call is made for
this release) exactly when the force flag is absent and `is_downloaded`
holds. -/
def main_album_step (force : Bool) (downloadedSet : List PyVal)
    (id : String × Nat) (url : String) : Bool :=
  !force && is_downloaded downloadedSet id url

/-- The two release kinds that resolved identities can carry
(`tralbum_data["current"]["type"]` and the label-grid item prefix are always
`album` or `track`). -/
inductive Kind
  | album
  | track
  deriving DecidableEq, Repr

/-- The Python string for a `Kind`. -/
def kindStr : Kind → String
  | .album => "album"
  | .track => "track"

/-- The `PyVal` entry that a resolved identity contributes to the in-memory
dedup set. -/
def entryPV (e : Kind × Nat) : PyVal :=
  PyVal.pair (PyVal.str (kindStr e.1)) (PyVal.intv e.2)

/-- The history-file lines produced by recording a sequence of resolved
identities through `add_to_dl_file`. -/
def historyLines (entries : List (Kind × Nat)) : List (List Char) :=
  entries.map (fun e => add_to_dl_file (kindStr e.1, e.2))

/-! ## Direct downloader (`bc_free_downloader.py`: `_download_file`) -/

/-- Result of `_download_file`: the dict with keys `id` and `file_name`,
where `id` is the `(type, item_id)` pair read from the download page. -/
structure DlRet where
  id : String × Nat
  fileName : String
  deriving DecidableEq, Repr

/-- Attempt/fetch counts observed during one `_download_file` call
(instrumentation for the retry-protocol claims). -/
structure DFStats where
  attempts : Nat
  statFetches : Nat
  deriving DecidableEq, Repr

/-- Environment of `_download_file`: the streaming download attempt (the
inner `download` closure: GET, status check, write to disk, returning the
file name) and the statdownload fetch (GET + `raise_for_status`, returning
the response body). -/
structure DFEnv where
  attempt : String → Except PyErr String
  statResp : String → Except PyErr String

/-- The literal characters of the prefix of `RETRY_URL_REGEX`, i.e.
`"retry_url":"` as it appears in the statdownload response body. -/
def retryUrlPre : List Char :=
  '"' :: 'r' :: 'e' :: 't' :: 'r' :: 'y' :: '_' :: 'u' :: 'r' :: 'l' ::
    '"' :: ':' :: ['"']

/-- Model of `RETRY_URL_REGEX.search` (`bc_free_downloader.py` line 42,
pattern `"retry_url":"(?P<retry_url>[^"]*)"`): leftmost search, returning
the captured group. -/
def searchRetryUrl (body : List Char) : Option (List Char) :=
  scanCapture retryUrlPre ['"'] body

/-- The statdownload URL derived on the fallback path
(`bc_free_downloader.py` line 115):
`download_url.replace("/download/", "/statdownload/")`. -/
def statUrlOf (downloadUrl : List Char) : List Char :=
  replaceAll "/download/".toList "/statdownload/".toList downloadUrl

/-- The message of the `BCFreeDownloadError` raised when the retry URL is
empty (`bc_free_downloader.py` lines 123-126). -/
def expiredMsg : String :=
  "Download expired. Make sure your payment email is linked to your fan account (Settings > Fan > Payment email addresses)"

/-- The `AttributeError` raised when `RETRY_URL_REGEX.search` returns `None`
and `.group` is called on it (`bc_free_downloader.py` line 118). -/
def noneGroupErr : PyErr :=
  PyErr.attrErr "NoneType object has no attribute group"

/-- Model of the try/except retry protocol of `_download_file`
(`bc_free_downloader.py` lines 112-126), given the format-specific direct
download URL already extracted from the download page.  Returns the result
together with the observed attempt/fetch counts. -/
def download_with_retry (env : DFEnv) (downloadUrl : List Char) :
    Except PyErr String × DFStats :=
  match env.attempt downloadUrl.asString with
  | .ok name => (.ok name, ⟨1, 0⟩)
  | .error _ =>
    match env.statResp (statUrlOf downloadUrl).asString with
    | .error e => (.error e, ⟨1, 1⟩)
    | .ok body =>
      match searchRetryUrl body.toList with
      | none => (.error noneGroupErr, ⟨1, 1⟩)
      | some cap =>
        if cap ≠ [] then
          match env.attempt cap.asString with
          | .ok name => (.ok name, ⟨2, 1⟩)
          | .error e => (.error e, ⟨2, 1⟩)
        else
          (.error (PyErr.bcFree expiredMsg), ⟨1, 1⟩)

/-- The `FORMATS` table of `bc_free_downloader.py` lines 43-52. -/
def FORMATS : List (String × String) :=
  [("FLAC", "flac"), ("V0MP3", "mp3-v0"), ("320MP3", "mp3-320"),
   ("AAC", "aac-hi"), ("Ogg", "vorbis"), ("ALAC", "alac"),
   ("WAV", "wav"), ("AIFF", "aiff-lossless")]

/-- The `digital_items[0]` blob of a download page: its `(type, item_id)`
identity and the per-format-token download URLs. -/
structure DigitalItem where
  typ : String
  item_id : Nat
  downloads : List (String × String)

/-- Model of `_download_file` (`bc_free_downloader.py` lines 87-130): fetch
the download page (`pageItem` models the GET + parse of the `pagedata`
blob), resolve the format token and direct URL, run the retry protocol, and
return the identity and file name. -/
def download_file (env : DFEnv) (pageItem : String → Except PyErr DigitalItem)
    (downloadPageUrl format : String) : Except PyErr DlRet × DFStats :=
  match pageItem downloadPageUrl with
  | .error e => (.error e, ⟨0, 0⟩)
  | .ok data =>
    match (FORMATS.lookup format).bind (fun tok => data.downloads.lookup tok) with
    | none => (.error (PyErr.keyErr format), ⟨0, 0⟩)
    | some downloadUrl =>
      match download_with_retry env downloadUrl.toList with
      | (.ok name, st) => (.ok ⟨(data.typ, data.item_id), name⟩, st)
      | (.error e, st) => (.error e, st)

/-! ## Acquisition strategist (`bc_free_downloader.py`: `download_album`,
`_download_purchased_album`, `download_label`) -/

/-- Counters of the outward-visible actions taken while evaluating the
strategist (instrumentation for the branch-selection claims).  `logs`
records the messages of the logger calls the claims refer to. -/
structure Effects where
  emailPosts : Nat
  searchCalls : Nat
  downloads : Nat
  pageFetches : Nat
  logs : List String
  deriving DecidableEq, Repr

/-- The empty effects record. -/
def eff0 : Effects := ⟨0, 0, 0, 0, []⟩

/-- The `current` sub-object of the `data-tralbum` blob. -/
structure TralbumCurrent where
  typ : String
  id : Nat
  title : String
  deriving DecidableEq, Repr

/-- The fields of the `data-tralbum` blob that `download_album` reads.
`freeDownloadPage` is `none` for JSON `null`; the empty string is also falsy
in the Python truthiness test. -/
structure TralbumData where
  url : String
  hasAudio : Bool
  freeDownloadPage : Option String
  current : TralbumCurrent
  is_purchased : Bool
  deriving DecidableEq, Repr

/-- One `albumRelease` record of the `ld+json` head data: its `@id` and the
optional `offers` block, whose `price` key may itself be missing.  Prices
are modelled as exact rationals (the source compares a JSON float against
`0.0`). -/
structure AlbumRelease where
  atId : String
  offers : Option (Option ℚ)
  deriving DecidableEq, Repr

/-- The fields of the `ld+json` head data that `download_album` reads:
the page `@id`, the optional `inAlbum` fallback (only its `albumRelease`
list matters) and the albumRelease list of the page itself. -/
structure HeadData where
  atId : String
  inAlbum : Option (List AlbumRelease)
  albumRelease : List AlbumRelease
  deriving DecidableEq, Repr

/-- All the page-derived inputs of one `download_album` call: the two
parsed data blobs and the `fan_id` of the `data-tralbum-collect-info`
script (read only on the purchased path). -/
structure AlbumPage where
  tralbum_data : TralbumData
  head_data : HeadData
  fan_id : Nat
  deriving DecidableEq, Repr

/-- The parsed response of the collection-search call
(`tralbums` and `redownload_urls`); its contents are never reached by the
source because of the unbound-local defect, so only its shape matters. -/
structure SearchResults where
  tralbums : List (String × Nat)
  redownload_urls : List (String × String)
  deriving DecidableEq, Repr

/-- The options the strategist reads (`BCFreeDownloaderOptions`). -/
structure Opts where
  format : String
  email : String
  country : String
  zipcode : String
  deriving DecidableEq, Repr

/-- The form posted to `/email_download` (`bc_free_downloader.py` lines
229-239). -/
structure EmailForm where
  item_id : Nat
  item_type : String
  address : String
  country : String
  postcode : String
  deriving DecidableEq, Repr

/-- Environment of the strategist: the collaborators invoked on each path.
`downloadFile` models `self._download_file(url, format)`; `emailPost`
models the `/email_download` POST and yields the `ok` field of the JSON
acknowledgement; `collectionSearch` models the
`fancollection/1/search_items` POST. -/
structure AlbumEnv where
  opts : Opts
  downloadFile : String → String → Except PyErr DlRet
  emailPost : EmailForm → Except PyErr Bool
  collectionSearch : Nat → String → Except PyErr SearchResults

/-- Python truthiness of the `freeDownloadPage` field. -/
def truthyS : Option String → Bool
  | none => false
  | some s => !(s = "")

/-- The result dict of `download_album`, together with the pending-set
insertion it performs on the email path (`self.queued_emails[(type, id)] =
album_data`, modelled by the `enqueue` field). -/
structure AlbumRet where
  is_downloaded : Bool
  email_queued : Bool
  file_name : Option String
  enqueue : Option (String × Nat)
  deriving DecidableEq, Repr

/-- Model of `_download_purchased_album` (`bc_free_downloader.py` lines
161-192): one collection-search POST is issued and parsed; then line 176
builds `wanted_id` from the local name `tralbum`, which is only assigned at
line 178, so the call raises `UnboundLocalError` — the matching, the
`NotFoundInCollection` checks and the redownload are unreachable. -/
def download_purchased_album (env : AlbumEnv) (eff : Effects) (fanId : Nat)
    (td : TralbumData) : Except (PyErr × Effects) (DlRet × Effects) :=
  let eff := { eff with searchCalls := eff.searchCalls + 1 }
  match env.collectionSearch fanId td.current.title with
  | .error e => .error (e, eff)
  | .ok _results => .error (PyErr.unboundLocal "tralbum", eff)

/-- The message logged when the matched release record has no `offers`
block (`bc_free_downloader.py` line 219). -/
def noOffersMsg (url : String) : String :=
  url ++ " has no available offers."

/-- The message logged on the terminal not-free branch
(`bc_free_downloader.py` lines 258-261). -/
def notFreeMsg (url : String) : String :=
  url ++ " is not free."

/-- The release-association list that `download_album` cross-references:
`head_data.get("inAlbum", head_data)["albumRelease"]`
(`bc_free_downloader.py` line 213). -/
def releaseListOf (hd : HeadData) : List AlbumRelease :=
  match hd.inAlbum with
  | some l => l
  | none => hd.albumRelease

/-- Model of `download_album` (`bc_free_downloader.py` lines 195-267): the
acquisition strategist.  Branches, in source order: no audio → report and
return; select the `albumRelease` record matching the page `@id`
(`StopIteration` when none matches); log when it has no `offers` block;
then `freeDownloadPage` → direct download, else zero price → one email
post and enqueue, else purchased → collection path, else report not free. -/
def download_album (env : AlbumEnv) (eff : Effects) (pg : AlbumPage) :
    Except (PyErr × Effects) (AlbumRet × Effects) :=
  let td := pg.tralbum_data
  let hd := pg.head_data
  if td.hasAudio = false then
    .ok (⟨false, false, none, none⟩, eff)
  else
    let head_id := hd.atId
    match (releaseListOf hd).find? (fun o => o.atId == head_id) with
    | none => .error (PyErr.stopIter, eff)
    | some album_release =>
      let eff := if album_release.offers.isNone then
          { eff with logs := eff.logs ++ [noOffersMsg td.url] }
        else eff
      if truthyS td.freeDownloadPage then
        let eff := { eff with downloads := eff.downloads + 1 }
        match env.downloadFile (td.freeDownloadPage.getD "") env.opts.format with
        | .error e => .error (e, eff)
        | .ok dlret => .ok (⟨true, false, some dlret.fileName, none⟩, eff)
      else
        match album_release.offers with
        | none => .error (PyErr.keyErr "offers", eff)
        | some offers =>
          match offers with
          | none => .error (PyErr.keyErr "price", eff)
          | some price =>
            if price = 0 then
              let eff := { eff with emailPosts := eff.emailPosts + 1 }
              match env.emailPost ⟨td.current.id, td.current.typ,
                  env.opts.email, env.opts.country, env.opts.zipcode⟩ with
              | .error e => .error (e, eff)
              | .ok okFlag =>
                if okFlag = false then .error (PyErr.valueErr, eff)
                else .ok (⟨false, true, none,
                    some (td.current.typ, td.current.id)⟩, eff)
            else if td.is_purchased then
              match download_purchased_album env eff pg.fan_id td with
              | .error (e, eff2) => .error (e, eff2)
              | .ok (dlret, eff2) =>
                .ok (⟨true, false, some dlret.fileName, none⟩, eff2)
            else
              .ok (⟨false, false, none, none⟩,
                { eff with logs := eff.logs ++ [notFreeMsg td.url] })

/-- A release stub enumerated on a label page (only the URL matters here). -/
structure LabelRelease where
  url : String
  deriving DecidableEq, Repr

/-- Environment of `download_label`: fetching and parsing a release page by
URL, plus the strategist environment. -/
structure LabelEnv where
  pageAt : String → AlbumPage
  albumEnv : AlbumEnv

/-- Model of the per-release loop of `download_label`
(`bc_free_downloader.py` lines 270-285): fetch each release page, run
`download_album`, catch only `BCFreeDownloadError` (logged and skipped,
recorded as `none`); every other exception propagates and aborts the rest
of the batch. -/
def download_label (env : LabelEnv) (eff : Effects) :
    List LabelRelease → Except (PyErr × Effects) (List (String × Option AlbumRet) × Effects)
  | [] => .ok ([], eff)
  | r :: rest =>
    let eff := { eff with pageFetches := eff.pageFetches + 1 }
    match download_album env.albumEnv eff (env.pageAt r.url) with
    | .ok (ret, eff2) =>
      match download_label env eff2 rest with
      | .ok (l, eff3) => .ok ((r.url, some ret) :: l, eff3)
      | .error e => .error e
    | .error (PyErr.bcFree _, eff2) =>
      match download_label env eff2 rest with
      | .ok (l, eff3) => .ok ((r.url, none) :: l, eff3)
      | .error e => .error e
    | .error (e, eff2) => .error (e, eff2)

/-! ## Page classifier (`bc_free_downloader.py`: `get_page_info`) -/

/-- The value returned by `get_page_info` in the recognized cases: the page
type string paired with an opaque payload standing for the parsed
album/label info. -/
structure PageInfoRet where
  typ : String
  info : Nat
  deriving DecidableEq, Repr

/-- Model of `get_page_info` (`bc_free_downloader.py` lines 360-371): read
the `og:type` marker; `album`/`song` and `band` return the tagged info
(`albumInfo`/`labelInfo` model the `get_album_info`/`get_label_info`
payloads); every other marker value falls into the default case, whose log
line `f"{url} does not have a valid og:type value"` references the name
`url`, which is not defined anywhere in the static method, so Python raises
`NameError` instead of reaching the `return None`. -/
def get_page_info (ogType : String) (albumInfo labelInfo : Nat) :
    Except PyErr (Option PageInfoRet) :=
  if ogType = "album" ∨ ogType = "song" then
    .ok (some ⟨ogType, albumInfo⟩)
  else if ogType = "band" then
    .ok (some ⟨ogType, labelInfo⟩)
  else
    .error (PyErr.nameErr "url")

/-! ## Mailbox fulfillment (`bc_free_downloader.py`: `_init_email`,
`flush_email_downloads`) -/

/-- An entry of the `get_email_list`/`get_all_emails` listing: id, sender
and subject (the body is fetched separately via `get_email`). -/
structure Email where
  mail_id : Nat
  mail_from : String
  mail_subject : String
  deriving DecidableEq, Repr

/-- The mailbox collaborator (`GMSession`): the listing returned by
`get_all_emails` at each polling cycle, and the body returned by
`get_email` for a message id. -/
structure GMEnv where
  emailsAt : Nat → List Email
  bodyOf : Nat → String

/-- The value stored in the record slot `self.queued_emails`.  The source
assigns the integer `0` to this slot in the timeout branch (line 342), so
the slot is dynamically typed: either the dict of pending requests (keyed
by `(type, id)`, carrying the album data whose `tralbum_data["url"]` the
resend path would refetch) or an integer. -/
inductive QueuedVal
  | dict (l : List ((String × Nat) × String))
  | intVal (n : Nat)
  deriving DecidableEq, Repr

/-- Python `len` of the pending slot, as used by the loop guard
`len(self.queued_emails) > 0`.  The `intVal` case is unreachable there: the
only assignment of an integer is immediately followed by the iteration that
raises `TypeError`. -/
def queuedLen : QueuedVal → Nat
  | .dict l => l.length
  | .intVal _ => 0

/-- Environment of `flush_email_downloads`: the optional mailbox session
(`self.mail_session`, `None` unless `_init_email` created one), the direct
downloader invoked on a matched message URL, and the resend action
(`self.download_album(self.get_url(url))`) of the timeout branch. -/
structure FlushEnv where
  mailSession : Option GMEnv
  downloadAt : String → Except PyErr DlRet
  resendAt : String → Except PyErr Unit

/-- The mutable state of one `flush_email_downloads` invocation:
`checkedIds`, the `downloaded` result mapping, the timeout counter, the
pending slot, and an instrumentation counter of resend attempts actually
performed. -/
structure FlushSt where
  checkedIds : List Nat
  downloaded : List ((String × Nat) × String)
  timeoutCount : Nat
  queued : QueuedVal
  resends : Nat
  deriving DecidableEq, Repr

/-- The characters of the literal prefix of `LINK_REGEX`, `<a href="`. -/
def linkPre : List Char :=
  '<' :: 'a' :: ' ' :: 'h' :: 'r' :: 'e' :: 'f' :: '=' :: ['"']

/-- Model of `LINK_REGEX.search` (`bc_free_downloader.py` line 41, pattern
`<a href="(?P<url>[^"]*)">`): leftmost search for the first anchor URL. -/
def searchLink (body : List Char) : Option (List Char) :=
  scanCapture linkPre ['"', '>'] body

/-- Model of `self.queued_emails.pop(key)` on the dict case: Python dict
keys are unique, so removing every binding of the key equals removing the
one binding; a missing key raises `KeyError`. -/
def popQueued (key : String × Nat) (l : List ((String × Nat) × String)) :
    Except PyErr (List ((String × Nat) × String)) :=
  if (l.map Prod.fst).contains key then
    .ok (l.filter (fun kv => decide (kv.1 ≠ key)))
  else .error (PyErr.keyErr "id")

/-- The `AttributeError` raised when `flush_email_downloads` dereferences
an absent mailbox session (`self.mail_session.get_all_emails()` with
`self.mail_session = None`). -/
def gmNoneErr : PyErr :=
  PyErr.attrErr "NoneType object has no attribute get_all_emails"

/-- Model of the per-message body of the drain loop
(`bc_free_downloader.py` lines 318-335): reset the timeout counter, skip
already-checked ids, filter by sender and subject, fetch the body, extract
the first anchor URL, download it, pop the pending entry keyed by the
identity returned by the download, and record the result.  Errors carry the
state at the raise point. -/
def processEmail (env : FlushEnv) (gm : GMEnv) (st : FlushSt) (e : Email) :
    Except (PyErr × FlushSt) FlushSt :=
  let st := { st with timeoutCount := 0 }
  if st.checkedIds.contains e.mail_id then .ok st
  else
    let st := { st with checkedIds := st.checkedIds ++ [e.mail_id] }
    if e.mail_from == "noreply@bandcamp.com" &&
        containsSub "download".toList e.mail_subject.toList then
      match searchLink (gm.bodyOf e.mail_id).toList with
      | none => .ok st
      | some cap =>
        match env.downloadAt cap.asString with
        | .error er => .error (er, st)
        | .ok dlret =>
          match st.queued with
          | .intVal _ => .error (PyErr.attrErr "int object has no attribute pop", st)
          | .dict l =>
            match popQueued dlret.id l with
            | .error er => .error (er, st)
            | .ok l2 =>
              .ok { st with
                      queued := QueuedVal.dict l2
                      downloaded := st.downloaded ++ [(dlret.id, dlret.fileName)] }
    else .ok st

/-- Model of the resend loop of the timeout branch
(`bc_free_downloader.py` lines 343-345): `for album_data in
self.queued_emails` — but the previous line assigned the integer `0` to
that slot, so iterating it raises `TypeError`; the dict case (which would
refetch each pending URL and rerun the strategist) is unreachable. -/
def iterResend (env : FlushEnv) (st : FlushSt) : Except (PyErr × FlushSt) FlushSt :=
  match st.queued with
  | .intVal _ => .error (PyErr.typeErr, st)
  | .dict l =>
    l.foldlM (fun s kv =>
      match env.resendAt kv.2 with
      | .ok _ => .ok { s with resends := s.resends + 1 }
      | .error er => .error (er, s)) st

/-- Model of one polling cycle of the drain loop (`bc_free_downloader.py`
lines 315-345): dereference the mailbox session, list all messages, process
each, delete the examined messages (no model state), bump the timeout
counter, and on `timeout_count > 5` assign the integer `0` to the pending
slot and run the resend loop over it. -/
def flushCycle (env : FlushEnv) (cycle : Nat) (st : FlushSt) :
    Except (PyErr × FlushSt) FlushSt :=
  match env.mailSession with
  | none => .error (gmNoneErr, st)
  | some gm =>
    match (gm.emailsAt cycle).foldlM (processEmail env gm) st with
    | .error e => .error e
    | .ok st =>
      let st := { st with timeoutCount := st.timeoutCount + 1 }
      if st.timeoutCount > 5 then
        iterResend env { st with queued := .intVal 0 }
      else .ok st

/-- Model of `flush_email_downloads` (`bc_free_downloader.py` lines
308-346): run polling cycles while the pending set is non-empty, returning
the `downloaded` mapping.  `fuel` bounds the number of cycles evaluated;
every theorem below supplies enough fuel for the behaviour it states. -/
def flush_email_downloads (env : FlushEnv) : Nat → Nat → FlushSt →
    Except (PyErr × FlushSt) FlushSt
  | 0, _, st => .ok st
  | fuel + 1, cycle, st =>
    if queuedLen st.queued = 0 then .ok st
    else
      match flushCycle env cycle st with
      | .error e => .error e
      | .ok st2 => flush_email_downloads env fuel (cycle + 1) st2

/-- Model of `_init_email` (`bc_free_downloader.py` lines 72-75): a
disposable-mailbox session is created exactly when the configured email is
falsy (unset or empty) or the literal `auto`; in that case the option is
overwritten with the session address.  Returns whether a session was
created, and the resulting email option. -/
def init_email (gmAddr : String) (email : Option String) : Bool × Option String :=
  if truthyS email = false || email = some "auto" then (true, some gmAddr)
  else (false, email)

/-! ## Helper lemmas: decimal round-trip and stripping -/

theorem decDigit_toNat {d : Nat} (h : d < 10) : (decDigit d).toNat = 48 + d := by
  interval_cases d <;> rfl

theorem isDigitCh_decDigit {d : Nat} (h : d < 10) : isDigitCh (decDigit d) = true := by
  interval_cases d <;> rfl

theorem isSpaceCh_of_digit {c : Char} (h : isDigitCh c = true) : isSpaceCh c = false := by
  simp only [isDigitCh, Bool.and_eq_true, decide_eq_true_eq] at h
  simp only [isSpaceCh, Bool.or_eq_false_iff, decide_eq_false_iff_not]
  omega

theorem natDecAux_ne_nil {fuel n : Nat} (h : n < fuel) : natDecAux fuel n ≠ [] := by
  cases fuel with
  | zero => omega
  | succ f =>
    simp only [natDecAux]
    split
    · simp
    · simp

theorem natDec_ne_nil (n : Nat) : natDec n ≠ [] :=
  natDecAux_ne_nil (by omega)

theorem natDecAux_all_digits {fuel : Nat} : ∀ {n : Nat}, n < fuel →
    ∀ c ∈ natDecAux fuel n, isDigitCh c = true := by
  induction fuel with
  | zero => omega
  | succ f ih =>
    intro n hn c hc
    simp only [natDecAux] at hc
    split at hc
    · rcases List.mem_singleton.mp hc with rfl
      exact isDigitCh_decDigit (by omega)
    · rcases List.mem_append.mp hc with hc | hc
      · have hlt : n / 10 < f := by
          have h10 : 10 ≤ n := by omega
          have := Nat.div_lt_self (show 0 < n by omega) (show 1 < 10 by omega)
          omega
        exact ih hlt c hc
      · rcases List.mem_singleton.mp hc with rfl
        exact isDigitCh_decDigit (Nat.mod_lt _ (by omega))

theorem natDec_all_digits (n : Nat) : ∀ c ∈ natDec n, isDigitCh c = true :=
  natDecAux_all_digits (by omega)

theorem decVal_append_digit (l : List Char) (c : Char) :
    decVal (l ++ [c]) = decVal l * 10 + (c.toNat - 48) := by
  simp [decVal, List.foldl_append]

theorem decVal_natDecAux {fuel : Nat} : ∀ {n : Nat}, n < fuel →
    decVal (natDecAux fuel n) = n := by
  induction fuel with
  | zero => omega
  | succ f ih =>
    intro n hn
    simp only [natDecAux]
    split
    · rename_i h10
      simp [decVal, decDigit_toNat h10]
    · rename_i h10
      have hlt : n / 10 < f := by
        have := Nat.div_lt_self (show 0 < n by omega) (show 1 < 10 by omega)
        omega
      rw [decVal_append_digit, ih hlt, decDigit_toNat (Nat.mod_lt _ (by omega))]
      omega

theorem decVal_natDec (n : Nat) : decVal (natDec n) = n :=
  decVal_natDecAux (by omega)

theorem dropWhile_eq_self_of_all {p : Char → Bool} {l : List Char}
    (h : ∀ c ∈ l, p c = false) : l.dropWhile p = l := by
  cases l with
  | nil => rfl
  | cons c r =>
    rw [List.dropWhile_cons, if_neg]
    simp [h c (List.mem_cons_self c r)]

theorem stripChars_of_all {l : List Char} (h : ∀ c ∈ l, isSpaceCh c = false) :
    stripChars l = l := by
  unfold stripChars
  rw [dropWhile_eq_self_of_all h,
    dropWhile_eq_self_of_all (fun c hc => h c (List.mem_reverse.mp hc)),
    List.reverse_reverse]

theorem pyInt_natDec (n : Nat) : pyInt (natDec n) = .ok n := by
  have hall : ∀ c ∈ natDec n, isDigitCh c = true := natDec_all_digits n
  have hs : stripChars (natDec n) = natDec n :=
    stripChars_of_all (fun c hc => isSpaceCh_of_digit (hall c hc))
  simp only [pyInt, hs]
  rw [if_pos ⟨natDec_ne_nil n, List.all_eq_true.mpr (by simpa using hall)⟩]
  exact congrArg Except.ok (decVal_natDec n)

theorem nonspace_add_to_dl_file {k : Kind} {n : Nat} :
    ∀ c ∈ add_to_dl_file (kindStr k, n), isSpaceCh c = false := by
  have hdigits := natDec_all_digits n
  cases k <;>
  · intro c hc
    simp only [add_to_dl_file, kindStr, List.mem_cons, List.mem_append] at hc
    rcases hc with hc | hc
    · rcases List.mem_singleton.mp hc with rfl
      rfl
    · rcases hc with rfl | hc
      · rfl
      · exact isSpaceCh_of_digit (hdigits c hc)

theorem parse_add_to_dl_file (k : Kind) (n : Nat) :
    parse_history_line (add_to_dl_file (kindStr k, n)) = .ok (entryPV (k, n)) := by
  have hs : stripChars (add_to_dl_file (kindStr k, n)) = add_to_dl_file (kindStr k, n) :=
    stripChars_of_all nonspace_add_to_dl_file
  cases k
  · have hs2 : stripChars ('a' :: ':' :: natDec n) = 'a' :: ':' :: natDec n := hs
    have hline : add_to_dl_file (kindStr Kind.album, n) = 'a' :: ':' :: natDec n := rfl
    simp only [parse_history_line, hline, hs2, List.take_succ_cons, List.take_zero,
      List.drop_succ_cons, List.drop_zero]
    rw [if_pos trivial, pyInt_natDec]
    rfl
  · have hs2 : stripChars ('t' :: ':' :: natDec n) = 't' :: ':' :: natDec n := hs
    have hline : add_to_dl_file (kindStr Kind.track, n) = 't' :: ':' :: natDec n := rfl
    simp only [parse_history_line, hline, hs2, List.take_succ_cons, List.take_zero,
      List.drop_succ_cons, List.drop_zero]
    rw [if_neg (by decide), if_pos trivial, pyInt_natDec]
    rfl

/-- Decidable equality of `Except` results, for concrete evaluations. -/
instance {ε α : Type} [DecidableEq ε] [DecidableEq α] :
    DecidableEq (Except ε α) := fun a b =>
  match a, b with
  | .ok x, .ok y =>
    if h : x = y then .isTrue (by rw [h]) else .isFalse (by simp [h])
  | .error x, .error y =>
    if h : x = y then .isTrue (by rw [h]) else .isFalse (by simp [h])
  | .ok _, .error _ => .isFalse (by simp)
  | .error _, .ok _ => .isFalse (by simp)

/-- Every entry parsed from a history line is a Python tuple (a `pair`). -/
theorem parse_history_line_is_pair (line : List Char) :
    ∀ v, parse_history_line line = .ok v → ∃ a b, v = PyVal.pair a b := by
  intro v h
  simp only [parse_history_line] at h
  split at h
  · split at h
    · cases h
      exact ⟨_, _, rfl⟩
    · cases h
  · split at h
    · split at h
      · cases h
        exact ⟨_, _, rfl⟩
      · cases h
    · cases h
      exact ⟨_, _, rfl⟩

/-- Every member of a reloaded dedup set is a tuple. -/
theorem get_downloaded_pairs :
    ∀ {lines : List (List Char)} {s : List PyVal},
      get_downloaded lines = .ok s → ∀ v ∈ s, ∃ a b, v = PyVal.pair a b := by
  intro lines
  induction lines with
  | nil =>
    intro s h v hv
    cases h
    cases hv
  | cons line rest ih =>
    intro s h v hv
    unfold get_downloaded at h
    cases hp : parse_history_line line with
    | error e => rw [hp] at h; cases h
    | ok w =>
      rw [hp] at h
      cases hr : get_downloaded rest with
      | error e => rw [hr] at h; cases h
      | ok vs =>
        rw [hr] at h
        cases h
        rcases List.mem_cons.mp hv with rfl | hv
        · exact parse_history_line_is_pair line v hp
        · exact ih hr v hv

/-- A bare URL string is never a member of a reloaded dedup set: raw-URL
history lines are stored as `("url", url)` tuples, not as bare strings. -/
theorem str_not_mem_of_history {lines : List (List Char)} {s : List PyVal}
    (h : get_downloaded lines = .ok s) (u : String) :
    s.contains (PyVal.str u) = false := by
  by_contra hc
  rw [Bool.not_eq_false] at hc
  rcases get_downloaded_pairs h _ (List.mem_of_elem_eq_true hc) with ⟨a, b, hab⟩
  cases hab

/-! ## Claim C6 -/

/-- C6 (confirmed): recording any sequence of resolved identities as
history lines and reloading reproduces a dedup set with exactly the
original entries as members — membership is identical whatever the order,
and duplicates collapse in the set. -/
theorem claim_C6_history_roundtrip (entries : List (Kind × Nat)) :
    ∃ parsed, get_downloaded (historyLines entries) = Except.ok parsed ∧
      ∀ v : PyVal, v ∈ parsed ↔ ∃ e ∈ entries, v = entryPV e := by
  refine ⟨entries.map entryPV, ?_, ?_⟩
  · induction entries with
    | nil => rfl
    | cons e rest ih =>
      obtain ⟨k, n⟩ := e
      simp only [historyLines, List.map_cons] at ih ⊢
      unfold get_downloaded
      rw [parse_add_to_dl_file k n, ih]
  · intro v
    simp only [List.mem_map]
    constructor
    · rintro ⟨e, he, rfl⟩
      exact ⟨e, he, rfl⟩
    · rintro ⟨e, he, rfl⟩
      exact ⟨e, he, rfl⟩

/-- Witness for C6 at a concrete entry sequence (with a duplicate, so the
dedup-set reading is exercised). -/
theorem claim_C6_witness :
    ∃ parsed,
      get_downloaded (historyLines [(Kind.album, 7), (Kind.track, 3), (Kind.album, 7)])
        = Except.ok parsed ∧
      ∀ v : PyVal, v ∈ parsed ↔
        ∃ e ∈ [(Kind.album, 7), (Kind.track, 3), (Kind.album, 7)], v = entryPV e :=
  claim_C6_history_roundtrip [(Kind.album, 7), (Kind.track, 3), (Kind.album, 7)]

/-! ## Claim C5 -/

/-- C5 (amended): for a history set reloaded from file, the gate skips
exactly when the force flag is absent and the identity tuple is in the set;
the URL disjunct of `is_downloaded` never fires because raw-URL entries are
`("url", url)` tuples, and with the force flag the gate never skips. -/
theorem claim_C5_gate (lines : List (List Char)) (s : List PyVal) (force : Bool)
    (kind : String) (idn : Nat) (url : String)
    (h : get_downloaded lines = Except.ok s) :
    main_album_step force s (kind, idn) url
      = (!force && s.contains (PyVal.pair (PyVal.str kind) (PyVal.intv idn)))
    ∧ main_album_step true s (kind, idn) url = false := by
  constructor
  · unfold main_album_step is_downloaded
    rw [str_not_mem_of_history h url, Bool.or_false]
  · unfold main_album_step
    simp

/-- Witness for C5 at a concrete history and release. -/
theorem claim_C5_witness :
    get_downloaded [['a', ':', '5']]
        = Except.ok [PyVal.pair (PyVal.str "album") (PyVal.intv 5)]
    ∧ (main_album_step false [PyVal.pair (PyVal.str "album") (PyVal.intv 5)]
          ("album", 5) "u"
        = (!false && [PyVal.pair (PyVal.str "album") (PyVal.intv 5)].contains
            (PyVal.pair (PyVal.str "album") (PyVal.intv 5)))
      ∧ main_album_step true [PyVal.pair (PyVal.str "album") (PyVal.intv 5)]
          ("album", 5) "u" = false) :=
  ⟨by decide,
   claim_C5_gate [['a', ':', '5']] _ false "album" 5 "u" (by decide)⟩

/-- Counterexample for C5 as stated: a release whose canonical URL is in
the download history (as a raw-URL line) is NOT skipped without the force
flag — the bare URL string never matches the stored `("url", url)` tuple. -/
theorem claim_C5_counterexample :
    get_downloaded ["https://x.bandcamp.com/album/y".toList]
      = Except.ok [PyVal.pair (PyVal.str "url")
          (PyVal.str "https://x.bandcamp.com/album/y")]
    ∧ main_album_step false
        [PyVal.pair (PyVal.str "url") (PyVal.str "https://x.bandcamp.com/album/y")]
        ("album", 1) "https://x.bandcamp.com/album/y" = false := by
  exact ⟨by decide, by decide⟩

/-! ## Claim C1 -/

/-- C1 (amended): on a primary streaming-download failure, exactly one
statdownload fetch happens; if the `retry_url` capture is non-empty the
download is repeated against it exactly once with no further fallback; if
the capture is the empty string the call fails with the DownloadExpired
`BCFreeDownloadError` and makes no further download attempt; and if the
body has no `retry_url` field at all, the `.group` call on the failed
regex search raises `AttributeError` (not DownloadExpired), again with no
further download attempt. -/
theorem claim_C1_retry_protocol (env : DFEnv) (downloadUrl : List Char)
    (e : PyErr) (body : String)
    (hfail : env.attempt downloadUrl.asString = .error e)
    (hstat : env.statResp (statUrlOf downloadUrl).asString = .ok body) :
    (∀ cap, searchRetryUrl body.toList = some cap → cap ≠ [] →
      download_with_retry env downloadUrl = (env.attempt cap.asString, ⟨2, 1⟩))
    ∧ (searchRetryUrl body.toList = some [] →
      download_with_retry env downloadUrl
        = (.error (PyErr.bcFree expiredMsg), ⟨1, 1⟩))
    ∧ (searchRetryUrl body.toList = none →
      download_with_retry env downloadUrl = (.error noneGroupErr, ⟨1, 1⟩)) := by
  refine ⟨?_, ?_, ?_⟩
  · intro cap hcap hne
    simp only [download_with_retry, hfail, hstat, hcap]
    rw [if_pos hne]
    cases env.attempt cap.asString <;> rfl
  · intro hcap
    simp only [download_with_retry, hfail, hstat, hcap]
    rw [if_neg (by simp)]
  · intro hcap
    simp only [download_with_retry, hfail, hstat, hcap]

/-- A concrete environment exercising the successful retry path: a primary
failure, a statdownload body carrying a non-empty `retry_url`, a second
attempt that succeeds. -/
def dfEnvRetry : DFEnv where
  attempt := fun u => if u = "https://p.bandcamp.com/r2" then .ok "a.zip"
    else .error PyErr.valueErr
  statResp := fun _ =>
    .ok "\x7b\"result\": \"ok\", \"retry_url\":\"https://p.bandcamp.com/r2\"\x7d"

/-- Witness for C1 at the concrete retry environment. -/
theorem claim_C1_witness :
    dfEnvRetry.attempt "https://p.bandcamp.com/download/t".toList.asString
        = .error PyErr.valueErr
    ∧ searchRetryUrl
        ("\x7b\"result\": \"ok\", \"retry_url\":\"https://p.bandcamp.com/r2\"\x7d" : String).toList
        = some "https://p.bandcamp.com/r2".toList
    ∧ download_with_retry dfEnvRetry "https://p.bandcamp.com/download/t".toList
        = (dfEnvRetry.attempt "https://p.bandcamp.com/r2".toList.asString, ⟨2, 1⟩) :=
  ⟨by decide, by decide,
   (claim_C1_retry_protocol dfEnvRetry "https://p.bandcamp.com/download/t".toList
      PyErr.valueErr _ (by decide) (by rfl)).1
      "https://p.bandcamp.com/r2".toList (by decide) (by decide)⟩

/-- A concrete environment where the primary download fails and the
statdownload body has no `retry_url` field at all. -/
def dfEnvNoField : DFEnv where
  attempt := fun _ => .error PyErr.valueErr
  statResp := fun _ => .ok "\x7b\"result\": \"err\"\x7d"

/-- Counterexample for C1 as stated: with a statdownload response lacking
the `retry_url` field, the code fails with `AttributeError` from calling
`.group` on a failed regex search, not with the DownloadExpired
`BCFreeDownloadError` the claim requires. -/
theorem claim_C1_counterexample :
    download_with_retry dfEnvNoField "https://p.bandcamp.com/download/t".toList
      = (.error noneGroupErr, ⟨1, 1⟩)
    ∧ noneGroupErr ≠ PyErr.bcFree expiredMsg := by
  exact ⟨by decide, by decide⟩

/-! ## Claims C4, C7, C8: concrete strategist environments -/

/-- Concrete options for the strategist evaluations. -/
def optsC : Opts := ⟨"FLAC", "user@example.com", "United States", "00000"⟩

/-- Concrete strategist environment: every collaborator succeeds. -/
def envC4 : AlbumEnv where
  opts := optsC
  downloadFile := fun _ _ => .ok ⟨("album", 11), "a.zip"⟩
  emailPost := fun _ => .ok true
  collectionSearch := fun _ _ => .ok ⟨[], []⟩

/-- A release page with a `freeDownloadPage` set (branch (a)). -/
def pgFree : AlbumPage :=
  ⟨⟨"https://b.bandcamp.com/album/f", true, some "https://b.bandcamp.com/freedl",
     ⟨"album", 11, "F"⟩, false⟩,
   ⟨"https://b.bandcamp.com/album/f", none,
     [⟨"https://b.bandcamp.com/album/f", some (some 0)⟩]⟩, 77⟩

/-- A release page with no free page and a zero-price offer (branch (b)). -/
def pgEmail : AlbumPage :=
  ⟨⟨"https://b.bandcamp.com/album/e", true, none,
     ⟨"album", 22, "E"⟩, false⟩,
   ⟨"https://b.bandcamp.com/album/e", none,
     [⟨"https://b.bandcamp.com/album/e", some (some 0)⟩]⟩, 77⟩

/-- A purchased release page with a non-zero price and no free page
(branch (c)). -/
def pgPurch : AlbumPage :=
  ⟨⟨"https://b.bandcamp.com/album/p", true, none,
     ⟨"album", 44, "P"⟩, true⟩,
   ⟨"https://b.bandcamp.com/album/p", none,
     [⟨"https://b.bandcamp.com/album/p", some (some 7)⟩]⟩, 77⟩

/-! ## Claim C4 -/

/-- C4 (code bug on branch (c)): branch (a) downloads directly with no
email post and no search; branch (b) issues exactly one email-capture post
and enqueues the pending identity; branch (c) issues exactly one
collection-search call and then raises `UnboundLocalError` at the
`wanted_id` construction (line 176 uses the local `tralbum` before its
assignment at line 178), so the matching, the redownload and the
`NotFoundInCollection` failure are never reached. -/
theorem claim_C4_strategist_paths :
    download_album envC4 eff0 pgFree
      = .ok (⟨true, false, some "a.zip", none⟩, ⟨0, 0, 1, 0, []⟩)
    ∧ download_album envC4 eff0 pgEmail
      = .ok (⟨false, true, none, some ("album", 22)⟩, ⟨1, 0, 0, 0, []⟩)
    ∧ download_album envC4 eff0 pgPurch
      = .error (PyErr.unboundLocal "tralbum", ⟨0, 1, 0, 0, []⟩) := by
  refine ⟨by decide, by decide, by decide⟩

/-! ## Claim C8 -/

/-- A release page whose matched record lacks the `offers` block, with no
free download page and marked purchased. -/
def pgNoOffers : AlbumPage :=
  ⟨⟨"https://b.bandcamp.com/album/n", true, none,
     ⟨"album", 33, "N"⟩, true⟩,
   ⟨"ID8", none, [⟨"ID8", none⟩]⟩, 77⟩

/-- Counterexample for C8 as stated: with the `offers` block missing, no
free download page and `is_purchased` set, the strategist raises
`KeyError("offers")` at the zero-price test — the purchased branch is never
reached (no collection-search call is issued), so evaluation does NOT
continue through the remaining branches without aborting. -/
theorem claim_C8_counterexample :
    download_album envC4 eff0 pgNoOffers
      = .error (PyErr.keyErr "offers",
          ⟨0, 0, 0, 0, [noOffersMsg "https://b.bandcamp.com/album/n"]⟩) := by
  decide

/-- C8 (amended): when the matched record has no `offers` block, the
strategist logs the no-offers message and continues; the free-download-page
branch is still evaluated and, when taken, behaves as a plain direct
download; but when no free download page exists, the zero-price test raises
`KeyError("offers")`, so the zero-price and purchased branches are never
reached. -/
theorem claim_C8_no_offers (env : AlbumEnv) (eff : Effects) (pg : AlbumPage)
    (ar : AlbumRelease)
    (haudio : pg.tralbum_data.hasAudio = true)
    (hfind : (releaseListOf pg.head_data).find?
        (fun o => o.atId == pg.head_data.atId) = some ar)
    (hoff : ar.offers = none) :
    (truthyS pg.tralbum_data.freeDownloadPage = false →
      download_album env eff pg = .error (PyErr.keyErr "offers",
        ⟨eff.emailPosts, eff.searchCalls, eff.downloads, eff.pageFetches,
         eff.logs ++ [noOffersMsg pg.tralbum_data.url]⟩))
    ∧ (truthyS pg.tralbum_data.freeDownloadPage = true →
      download_album env eff pg =
        match env.downloadFile (pg.tralbum_data.freeDownloadPage.getD "")
            env.opts.format with
        | .error e => .error (e,
            ⟨eff.emailPosts, eff.searchCalls, eff.downloads + 1, eff.pageFetches,
             eff.logs ++ [noOffersMsg pg.tralbum_data.url]⟩)
        | .ok dlret => .ok (⟨true, false, some dlret.fileName, none⟩,
            ⟨eff.emailPosts, eff.searchCalls, eff.downloads + 1, eff.pageFetches,
             eff.logs ++ [noOffersMsg pg.tralbum_data.url]⟩)) := by
  constructor
  · intro hfd
    simp only [download_album, haudio, hfind, hoff, hfd]
    rfl
  · intro hfd
    simp only [download_album, haudio, hfind, hoff, hfd]
    cases env.downloadFile (pg.tralbum_data.freeDownloadPage.getD "")
        env.opts.format <;> rfl

/-- Witness for C8 at concrete pages: the no-free-page instance and a
free-page instance of the amended statement. -/
theorem claim_C8_witness :
    pgNoOffers.tralbum_data.hasAudio = true
    ∧ (truthyS pgNoOffers.tralbum_data.freeDownloadPage = false →
      download_album envC4 eff0 pgNoOffers = .error (PyErr.keyErr "offers",
        ⟨eff0.emailPosts, eff0.searchCalls, eff0.downloads, eff0.pageFetches,
         eff0.logs ++ [noOffersMsg pgNoOffers.tralbum_data.url]⟩)) :=
  ⟨rfl,
   (claim_C8_no_offers envC4 eff0 pgNoOffers ⟨"ID8", none⟩ rfl (by decide) rfl).1⟩

/-! ## Claim C7 -/

/-- Whether an error is an instance of the `BCFreeDownloadError` class of the downloader —
the only class the label-batch loop catches and treats as skip-and-continue. -/
def isBCFreeErr : PyErr → Bool
  | .bcFree _ => true
  | _ => false

/-- A release page whose release-association list has no record matching
the primary content identifier of the page. -/
def pgBadMatch : AlbumPage :=
  ⟨⟨"https://b.bandcamp.com/track/x", true, some "F",
     ⟨"track", 5, "X"⟩, false⟩,
   ⟨"PAGEID", none, [⟨"OTHERID", some (some 0)⟩]⟩, 0⟩

/-- A label environment serving the mismatched page for the first release
and a well-formed page for the second. -/
def lenvC7 : LabelEnv where
  pageAt := fun u => if u = "https://l.bandcamp.com/r1" then pgBadMatch else pgFree
  albumEnv := envC4

/-- Counterexample for C7 as stated: a page with no matching
release-association record makes `download_album` raise the generic
`StopIteration` (bare `next` on an exhausted generator), which is not the
`BCFreeDownloadError` class of the downloader; the label-batch loop therefore does not
skip the release — the whole batch aborts with the second release never
fetched (`pageFetches` stays 1). -/
theorem claim_C7_counterexample :
    download_album envC4 eff0 pgBadMatch = .error (PyErr.stopIter, eff0)
    ∧ download_label lenvC7 eff0
        [⟨"https://l.bandcamp.com/r1"⟩, ⟨"https://l.bandcamp.com/r2"⟩]
      = .error (PyErr.stopIter, ⟨0, 0, 0, 1, []⟩)
    ∧ isBCFreeErr PyErr.stopIter = false := by
  refine ⟨by decide, by decide, rfl⟩

/-- C7 (amended): whenever the first release of a label batch has audio but
its release-association list has no record whose identifier equals the page
identifier, the classification inside `download_album` raises
`StopIteration`; since the label loop catches only `BCFreeDownloadError`,
the error propagates and the rest of the batch is abandoned (only one page
fetch is recorded), rather than the release being skipped. -/
theorem claim_C7_no_match (env : LabelEnv) (eff : Effects) (r : LabelRelease)
    (rest : List LabelRelease)
    (haudio : (env.pageAt r.url).tralbum_data.hasAudio = true)
    (hfind : (releaseListOf (env.pageAt r.url).head_data).find?
        (fun o => o.atId == (env.pageAt r.url).head_data.atId) = none) :
    download_label env eff (r :: rest)
      = .error (PyErr.stopIter,
          ⟨eff.emailPosts, eff.searchCalls, eff.downloads,
           eff.pageFetches + 1, eff.logs⟩) := by
  have halbum : ∀ eff2 : Effects,
      download_album env.albumEnv eff2 (env.pageAt r.url)
        = .error (PyErr.stopIter, eff2) := by
    intro eff2
    simp only [download_album, haudio, hfind]
    rw [if_neg (by decide)]
  simp only [download_label, halbum]

/-- Witness for C7 at the concrete label environment. -/
theorem claim_C7_witness :
    (lenvC7.pageAt "https://l.bandcamp.com/r1").tralbum_data.hasAudio = true
    ∧ download_label lenvC7 eff0 [⟨"https://l.bandcamp.com/r1"⟩]
      = .error (PyErr.stopIter,
          ⟨eff0.emailPosts, eff0.searchCalls, eff0.downloads,
           eff0.pageFetches + 1, eff0.logs⟩) :=
  ⟨by decide,
   claim_C7_no_match lenvC7 eff0 ⟨"https://l.bandcamp.com/r1"⟩ [] (by decide)
     (by decide)⟩

/-! ## Claim C9 -/

/-- C9 (code bug): the classifier returns the tagged info for the `album`,
`song` and `band` markers, but for any other marker value the default case
raises `NameError` — its log f-string references the undefined name `url` —
instead of returning the `None` (Unknown) value the callers test for. -/
theorem claim_C9_page_type :
    get_page_info "website" 0 0 = .error (PyErr.nameErr "url")
    ∧ get_page_info "profile" 0 0 = .error (PyErr.nameErr "url")
    ∧ get_page_info "album" 3 4 = .ok (some ⟨"album", 3⟩)
    ∧ get_page_info "song" 3 4 = .ok (some ⟨"song", 3⟩)
    ∧ get_page_info "band" 3 4 = .ok (some ⟨"band", 4⟩) := by
  refine ⟨by decide, by decide, by decide, by decide, by decide⟩

/-! ## Claim C2 -/

/-- A flush environment whose mailbox never yields a message. -/
def flushEnvC2 : FlushEnv where
  mailSession := some ⟨fun _ => [], fun _ => ""⟩
  downloadAt := fun _ => .error PyErr.valueErr
  resendAt := fun _ => .ok ()

/-- A flush state with one pending email-gated request. -/
def stC2 : FlushSt :=
  ⟨[], [], 0, QueuedVal.dict [(("album", 1), "https://b.bandcamp.com/album/a")], 0⟩

/-- C2 (code bug): with one pending request and a mailbox that yields no
message for six consecutive polling cycles, the timeout branch assigns the
integer `0` to the pending collection and then iterates it, raising
`TypeError`: zero resend attempts are performed (`resends` stays 0), the
counter is left at 6 (never reset), and the pending set is destroyed. -/
theorem claim_C2_timeout_crash :
    flush_email_downloads flushEnvC2 10 0 stC2
      = .error (PyErr.typeErr, ⟨[], [], 6, QueuedVal.intVal 0, 0⟩) := by
  decide

/-! ## Claim C3 -/

/-- C3 (confirmed): when the download of a qualifying message completes in a
drain, the pending entry removed is the one keyed by the identity returned
by the completed download — whatever position the entry holds — and the result
map gains that identity; the remaining keys are exactly the original keys
minus the returned identity. -/
theorem claim_C3_identity_correlation (env : FlushEnv) (gm : GMEnv)
    (st : FlushSt) (e : Email) (l : List ((String × Nat) × String))
    (cap : List Char) (dl : DlRet)
    (hq : st.queued = QueuedVal.dict l)
    (hnew : st.checkedIds.contains e.mail_id = false)
    (hfrom : e.mail_from = "noreply@bandcamp.com")
    (hsub : containsSub "download".toList e.mail_subject.toList = true)
    (hlink : searchLink (gm.bodyOf e.mail_id).toList = some cap)
    (hdl : env.downloadAt cap.asString = .ok dl)
    (hmem : (l.map Prod.fst).contains dl.id = true) :
    processEmail env gm st e = .ok
      ⟨st.checkedIds ++ [e.mail_id],
       st.downloaded ++ [(dl.id, dl.fileName)],
       0,
       QueuedVal.dict (l.filter (fun kv => decide (kv.1 ≠ dl.id))),
       st.resends⟩
    ∧ ∀ k, (k ∈ (l.filter (fun kv => decide (kv.1 ≠ dl.id))).map Prod.fst
        ↔ (k ∈ l.map Prod.fst ∧ k ≠ dl.id)) := by
  constructor
  · obtain ⟨ci, dls, tc, q, rs⟩ := st
    have hq2 : q = QueuedVal.dict l := hq
    subst hq2
    have hnew2 : ci.contains e.mail_id = false := hnew
    simp only [processEmail, hnew2, hfrom, hsub, hlink, hdl, popQueued, hmem,
      Bool.false_eq_true, if_false, if_true]
    rw [if_pos (by decide)]
  · intro k
    simp only [List.mem_map, List.mem_filter, decide_eq_true_eq]
    constructor
    · rintro ⟨kv, ⟨hkv, hne⟩, rfl⟩
      exact ⟨⟨kv, hkv, rfl⟩, hne⟩
    · rintro ⟨⟨kv, hkv, rfl⟩, hne⟩
      exact ⟨kv, ⟨hkv, hne⟩, rfl⟩

/-- A mailbox with one qualifying message whose body links the download of
the SECOND pending request. -/
def gmC3 : GMEnv where
  emailsAt := fun _ => [⟨9, "noreply@bandcamp.com", "Your download is here"⟩]
  bodyOf := fun _ => "get it: <a href=\"https://dl.bandcamp.com/t2\"> now"

/-- The flush environment around `gmC3`. -/
def envC3 : FlushEnv where
  mailSession := some gmC3
  downloadAt := fun u => if u = "https://dl.bandcamp.com/t2"
    then .ok ⟨("track", 2), "t2.flac"⟩ else .error PyErr.valueErr
  resendAt := fun _ => .ok ()

/-- Two pending requests; the message answers the second one. -/
def stC3 : FlushSt :=
  ⟨[], [], 0, QueuedVal.dict
    [(("album", 1), "https://b.bandcamp.com/album/a"),
     (("track", 2), "https://b.bandcamp.com/track/b")], 0⟩

/-- The qualifying message of `gmC3`. -/
def eC3 : Email := ⟨9, "noreply@bandcamp.com", "Your download is here"⟩

/-- Witness for C3: with two pending requests and one matching message for
the second, the pending set shrinks to exactly the first (unanswered)
entry, selected by the returned identity, not insertion order. -/
theorem claim_C3_witness :
    (([(("album", 1), "https://b.bandcamp.com/album/a"),
       (("track", 2), "https://b.bandcamp.com/track/b")].map
         (Prod.fst (β := String))).contains ("track", 2) = true)
    ∧ (processEmail envC3 gmC3 stC3 eC3 = .ok
        ⟨[9], [(("track", 2), "t2.flac")], 0,
         QueuedVal.dict ([(("album", 1), "https://b.bandcamp.com/album/a"),
            (("track", 2), "https://b.bandcamp.com/track/b")].filter
              (fun kv => decide (kv.1 ≠ ("track", 2)))),
         0⟩
      ∧ ∀ k, (k ∈ ([(("album", 1), "https://b.bandcamp.com/album/a"),
            (("track", 2), "https://b.bandcamp.com/track/b")].filter
              (fun kv => decide (kv.1 ≠ ("track", 2)))).map Prod.fst
          ↔ (k ∈ [(("album", 1), "https://b.bandcamp.com/album/a"),
              (("track", 2), "https://b.bandcamp.com/track/b")].map Prod.fst
            ∧ k ≠ ("track", 2)))) :=
  ⟨by decide,
   claim_C3_identity_correlation envC3 gmC3 stC3 eC3
     [(("album", 1), "https://b.bandcamp.com/album/a"),
      (("track", 2), "https://b.bandcamp.com/track/b")]
     "https://dl.bandcamp.com/t2".toList ⟨("track", 2), "t2.flac"⟩
     rfl (by decide) rfl (by decide) (by decide) (by decide) (by decide)⟩

/-! ## Claim C10 -/

/-- C10 (confirmed): a mailbox session exists only when the configured
email is unset (falsy) or the literal `auto`; with any other concrete email
address no session is created, email-gated submissions still enqueue, and
draining a non-empty pending set dereferences the absent session and fails
with `AttributeError` before resolving anything. -/
theorem claim_C10_absent_session (addr : String) (email : Option String)
    (env : FlushEnv) (cycle fuel : Nat) (st : FlushSt)
    (hemail : truthyS email = true) (hauto : email ≠ some "auto")
    (hsess : env.mailSession = none) (hpend : queuedLen st.queued ≠ 0) :
    init_email addr email = (false, email)
    ∧ init_email addr none = (true, some addr)
    ∧ init_email addr (some "auto") = (true, some addr)
    ∧ flush_email_downloads env (fuel + 1) cycle st = .error (gmNoneErr, st) := by
  refine ⟨?_, by rfl, by rfl, ?_⟩
  · simp [init_email, hemail, hauto]
  · have hc : flushCycle env cycle st = .error (gmNoneErr, st) := by
      simp only [flushCycle, hsess]
    simp only [flush_email_downloads, if_neg hpend, hc]

/-- Witness for C10 at a concrete address and pending state. -/
theorem claim_C10_witness :
    truthyS (some "user@example.com") = true
    ∧ (init_email "temp@guerrillamail.com" (some "user@example.com")
        = (false, some "user@example.com")
      ∧ init_email "temp@guerrillamail.com" none
        = (true, some "temp@guerrillamail.com")
      ∧ init_email "temp@guerrillamail.com" (some "auto")
        = (true, some "temp@guerrillamail.com")
      ∧ flush_email_downloads
          ⟨none, fun _ => .error PyErr.valueErr, fun _ => .ok ()⟩ (2 + 1) 0 stC2
        = .error (gmNoneErr, stC2)) :=
  ⟨by decide,
   claim_C10_absent_session "temp@guerrillamail.com" (some "user@example.com")
     ⟨none, fun _ => .error PyErr.valueErr, fun _ => .ok ()⟩ 0 2 stC2
     (by decide) (by decide) rfl (by decide)⟩

end BCFD
